import Mathlib

/-!
# Verification of the delivero-backend order lifecycle and dispatch engine

Shallow embedding of the order controllers (`createOrder`, `getOrders`,
`updateOrderStatus`, `cancelOrder`), the delivery controllers
(`getAvailableOrders`, `acceptOrder`, `pickupOrder`, `completeDelivery`),
the pricing helper `calculatePricing`, the haversine helper
`calculateDistance`, and the `Order` mongoose model with its pre-save
status-history hook.

Modelling conventions:
* Mongo document ids are `Nat`; timestamps (`new Date()`) are `Nat` values
  passed in as a `now` parameter; JS numbers used for money are modelled as
  exact rationals `ℚ`; geographic coordinates and distances are real `ℝ`.
* The environment configuration `process.env.SERVICE_FEE_RATE`,
  `SURGE_MULTIPLIER` and `COMMISSION_RATE` is passed to the embedded
  functions as explicit rate parameters.
* A controller is a function from the database value (plus request data) to
  `Except ApiError DB`: the JSON error responses (`res.status(4xx)`) become
  `ApiError` values, and an uncaught JS `TypeError` (e.g. calling
  `.toString()` on a null `driver`, or reading `.location` of a restaurant
  that failed to populate) becomes `ApiError.serverError`, matching the
  `catch (error) { next(error) }` handler. An error leaves the store
  untouched, which is faithful: every modelled controller performs all of
  its failure checks before its first write.
* `mongoose` behaviour that matters here: `Model.findById` is `find?` by id,
  `document.save()` writes the document back over the stored one with the
  same id, and the `orderSchema.pre('save')` hook appends a status-history
  entry exactly when the status field was modified (on a freshly created
  document the defaulted `status: 'pending'` counts as modified, so creation
  records a `pending` entry).
* The generated human-readable `orderNumber` (timestamp + random suffix) is
  random and is not used by any claim; it is omitted from the `Order`
  record.
-/

namespace Delivero

/-- Order status enumeration from `src/models/Order.js`
(`'picked-up'` is `pickedUp`, `'on-the-way'` is `onTheWay`). -/
inductive OrderStatus
  | pending
  | confirmed
  | preparing
  | ready
  | assigned
  | pickedUp
  | onTheWay
  | delivered
  | cancelled
  | rejected
  deriving DecidableEq

/-- One entry of the append-only `statusHistory` audit log. -/
structure StatusEntry where
  status : OrderStatus
  timestamp : Nat
  deriving DecidableEq

/-- `payment.status` enumeration from the order schema. -/
inductive PaymentStatus
  | pending
  | completed
  | failed
  | refunded
  deriving DecidableEq

/-- The `payment` sub-record of an order. The method is kept as the raw
request string (the controller validates it against a list). -/
structure Payment where
  method : String
  status : PaymentStatus
  paidAt : Option Nat
  deriving DecidableEq

/-- A selected customization option (name and price). -/
structure SelectedOption where
  name : String
  price : ℚ
  deriving DecidableEq

/-- A customization group with its selected options. -/
structure Customization where
  name : String
  selectedOptions : List SelectedOption
  deriving DecidableEq

/-- One line item of an order, as built by `createOrder`. -/
structure OrderItem where
  menuItem : Nat
  name : String
  price : ℚ
  quantity : Nat
  customizations : List Customization
  subtotal : ℚ
  deriving DecidableEq

/-- The pricing snapshot returned by `calculatePricing` and stored on the
order. -/
structure Pricing where
  subtotal : ℚ
  deliveryFee : ℚ
  serviceFee : ℚ
  tax : ℚ
  discount : ℚ
  total : ℚ
  platformCommission : ℚ
  restaurantEarnings : ℚ
  driverEarnings : ℚ
  deriving DecidableEq

/-- The actor role recorded in `cancellation.cancelledBy`. -/
inductive CancelActor
  | customer
  | restaurant
  | driver
  | admin
  deriving DecidableEq

/-- The `cancellation` sub-record of an order. -/
structure Cancellation where
  reason : String
  cancelledBy : CancelActor
  cancelledAt : Nat
  deriving DecidableEq

/-- The order document (`src/models/Order.js`), restricted to the fields the
controllers under verification read or write. -/
structure Order where
  id : Nat
  customer : Nat
  restaurant : Nat
  driver : Option Nat
  items : List OrderItem
  pricing : Pricing
  status : OrderStatus
  statusHistory : List StatusEntry
  payment : Payment
  acceptedAt : Option Nat
  preparedAt : Option Nat
  pickedUpAt : Option Nat
  deliveredAt : Option Nat
  cancellation : Option Cancellation
  isSurgeTime : Bool
  surgeMultiplier : ℚ
  createdAt : Nat
  deriving DecidableEq

/-- A GeoJSON point: `coordinates` is `[longitude, latitude]`, so index 0 is
the longitude and index 1 the latitude. -/
structure GeoPoint where
  lng : ℝ
  lat : ℝ

/-- The cumulative `stats` sub-record of a restaurant. -/
structure RestaurantStats where
  totalOrders : Nat
  totalRevenue : ℚ
  deriving DecidableEq

/-- The restaurant document, restricted to the fields read by the order and
delivery controllers. -/
structure Restaurant where
  id : Nat
  owner : Nat
  isActive : Bool
  isOpen : Bool
  deliveryFee : ℚ
  minimumOrder : ℚ
  location : GeoPoint
  stats : RestaurantStats

/-- `req.user.role`, set by the auth middleware. -/
inductive Role
  | customer
  | restaurant
  | driver
  | admin
  deriving DecidableEq

/-- The `driverProfile` sub-record of a user. -/
structure DriverProfile where
  isAvailable : Bool
  totalDeliveries : Nat
  deriving DecidableEq

/-- The user document, restricted to the fields the delivery and order
controllers use. -/
structure User where
  id : Nat
  role : Role
  driverProfile : DriverProfile
  deriving DecidableEq

/-- The menu-item document, restricted to the fields `createOrder` uses. -/
structure MenuItem where
  id : Nat
  name : String
  price : ℚ
  isAvailable : Bool
  totalOrders : Nat
  popularity : Nat
  deriving DecidableEq

/-- The persistent store: one list per Mongo collection. -/
structure DB where
  orders : List Order
  users : List User
  restaurants : List Restaurant
  menuItems : List MenuItem

/-- Error responses of the controllers. `serverError` stands for an uncaught
JS exception routed to `next(error)`. -/
inductive ApiError
  | notFound (msg : String)
  | badRequest (msg : String)
  | forbidden (msg : String)
  | serverError
  deriving DecidableEq

/-- `Order.findById`. -/
def DB.findOrder (db : DB) (oid : Nat) : Option Order :=
  db.orders.find? (fun o => decide (o.id = oid))

/-- `Restaurant.findById`. -/
def DB.findRestaurant (db : DB) (rid : Nat) : Option Restaurant :=
  db.restaurants.find? (fun r => decide (r.id = rid))

/-- `User.findById`. -/
def DB.findUser (db : DB) (uid : Nat) : Option User :=
  db.users.find? (fun u => decide (u.id = uid))

/-- `MenuItem.findById`. -/
def DB.findMenuItem (db : DB) (mid : Nat) : Option MenuItem :=
  db.menuItems.find? (fun m => decide (m.id = mid))

/-- The `orderSchema.pre('save')` status-history hook
(`src/models/Order.js:176-184`): when the status was modified relative to
the loaded document, push one `{status, timestamp}` entry. -/
def saveOrder (original updated : Order) (now : Nat) : Order :=
  if updated.status = original.status then updated
  else { updated with statusHistory := updated.statusHistory ++ [⟨updated.status, now⟩] }

/-- `order.save()`: write the document back over the stored order with the
same id. -/
def DB.saveOrderIn (db : DB) (o : Order) : DB :=
  { db with orders := db.orders.map (fun x => if decide (x.id = o.id) then o else x) }

/-! ## Pricing engine (`calculatePricing`, src/unnamed/part_000:6-30) -/

/-- `calculatePricing(items, deliveryFee, isSurgeTime)` with the
`process.env` rates passed explicitly. -/
def calculatePricing (items : List OrderItem) (deliveryFee : ℚ) (isSurgeTime : Bool)
    (serviceFeeRate surgeMultiplier commissionRate : ℚ) : Pricing :=
  let subtotal := items.foldl (fun sum item => sum + item.subtotal) 0
  let serviceFee := subtotal * serviceFeeRate
  let surgeMult := if isSurgeTime then surgeMultiplier else 1
  let adjustedDeliveryFee := deliveryFee * surgeMult
  let total := subtotal + adjustedDeliveryFee + serviceFee
  let platformCommission := subtotal * commissionRate + serviceFee
  let restaurantEarnings := subtotal - subtotal * commissionRate
  let driverEarnings := adjustedDeliveryFee
  { subtotal := subtotal
    deliveryFee := adjustedDeliveryFee
    serviceFee := serviceFee
    tax := 0
    discount := 0
    total := total
    platformCommission := platformCommission
    restaurantEarnings := restaurantEarnings
    driverEarnings := driverEarnings }

theorem foldl_add_subtotal (items : List OrderItem) (a : ℚ) :
    items.foldl (fun sum item => sum + item.subtotal) a
      = a + (items.map OrderItem.subtotal).sum := by
  induction items generalizing a with
  | nil => simp
  | cons i is ih => simp [ih, add_assoc]

/-- C2: the pricing computation returns subtotal equal to the sum of item
subtotals, `serviceFee = subtotal × serviceFeeRate`,
`deliveryFee = baseDeliveryFee × (surgeMultiplier if surge else 1)`,
`total = subtotal + deliveryFee + serviceFee` with `tax = 0` and
`discount = 0`, `platformCommission = subtotal × commissionRate +
serviceFee`, `restaurantEarnings = subtotal × (1 − commissionRate)`, and
`driverEarnings = deliveryFee`, for every item list, base fee, surge flag
and rates. -/
theorem calculatePricing_spec (items : List OrderItem) (deliveryFee : ℚ) (isSurgeTime : Bool)
    (serviceFeeRate surgeMultiplier commissionRate : ℚ) :
    (calculatePricing items deliveryFee isSurgeTime serviceFeeRate surgeMultiplier
        commissionRate).subtotal = (items.map OrderItem.subtotal).sum
    ∧ (calculatePricing items deliveryFee isSurgeTime serviceFeeRate surgeMultiplier
        commissionRate).serviceFee
        = (items.map OrderItem.subtotal).sum * serviceFeeRate
    ∧ (calculatePricing items deliveryFee isSurgeTime serviceFeeRate surgeMultiplier
        commissionRate).deliveryFee
        = deliveryFee * (if isSurgeTime then surgeMultiplier else 1)
    ∧ (calculatePricing items deliveryFee isSurgeTime serviceFeeRate surgeMultiplier
        commissionRate).total
        = (calculatePricing items deliveryFee isSurgeTime serviceFeeRate surgeMultiplier
            commissionRate).subtotal
          + (calculatePricing items deliveryFee isSurgeTime serviceFeeRate surgeMultiplier
              commissionRate).deliveryFee
          + (calculatePricing items deliveryFee isSurgeTime serviceFeeRate surgeMultiplier
              commissionRate).serviceFee
    ∧ (calculatePricing items deliveryFee isSurgeTime serviceFeeRate surgeMultiplier
        commissionRate).tax = 0
    ∧ (calculatePricing items deliveryFee isSurgeTime serviceFeeRate surgeMultiplier
        commissionRate).discount = 0
    ∧ (calculatePricing items deliveryFee isSurgeTime serviceFeeRate surgeMultiplier
        commissionRate).platformCommission
        = (calculatePricing items deliveryFee isSurgeTime serviceFeeRate surgeMultiplier
            commissionRate).subtotal * commissionRate
          + (calculatePricing items deliveryFee isSurgeTime serviceFeeRate surgeMultiplier
              commissionRate).serviceFee
    ∧ (calculatePricing items deliveryFee isSurgeTime serviceFeeRate surgeMultiplier
        commissionRate).restaurantEarnings
        = (calculatePricing items deliveryFee isSurgeTime serviceFeeRate surgeMultiplier
            commissionRate).subtotal * (1 - commissionRate)
    ∧ (calculatePricing items deliveryFee isSurgeTime serviceFeeRate surgeMultiplier
        commissionRate).driverEarnings
        = (calculatePricing items deliveryFee isSurgeTime serviceFeeRate surgeMultiplier
            commissionRate).deliveryFee := by
  refine ⟨?_, ?_, ?_, ?_, rfl, rfl, ?_, ?_, rfl⟩ <;>
    · simp [calculatePricing, foldl_add_subtotal]; try ring

/-! ## Order placement (`createOrder`, src/unnamed/part_000:35-152) -/

/-- One entry of the `items` array of the placement request body. -/
structure RequestItem where
  menuItem : Nat
  quantity : Nat
  customizations : List Customization
  deriving DecidableEq

/-- The placement request body (`req.body`). -/
structure OrderRequest where
  restaurant : Nat
  items : List RequestItem
  paymentMethod : String
  isSurgeTime : Bool
  deriving DecidableEq

/-- The item-subtotal loop of `createOrder`: `menuItem.price * quantity`
plus, for every customization, every selected option's `price * quantity`. -/
def itemSubtotal (menuItem : MenuItem) (item : RequestItem) : ℚ :=
  item.customizations.foldl
    (fun acc custom =>
      custom.selectedOptions.foldl (fun acc2 opt => acc2 + opt.price * item.quantity) acc)
    (menuItem.price * item.quantity)

/-- The validation loop of `createOrder` over the requested items: each menu
item must exist and be available, otherwise the whole request is rejected. -/
def buildOrderItems (db : DB) : List RequestItem → Option (List OrderItem)
  | [] => some []
  | item :: rest =>
    match db.findMenuItem item.menuItem with
    | none => none
    | some menuItem =>
      if !menuItem.isAvailable then none
      else
        match buildOrderItems db rest with
        | none => none
        | some others =>
          some ({ menuItem := menuItem.id
                  name := menuItem.name
                  price := menuItem.price
                  quantity := item.quantity
                  customizations := item.customizations
                  subtotal := itemSubtotal menuItem item } :: others)

/-- The accepted payment methods of `createOrder`. -/
def validPaymentMethods : List String := ["card", "cash", "wallet"]

/-- The post-creation popularity update: for each ordered item,
`$inc: { totalOrders: quantity, popularity: quantity }`. -/
def bumpMenuStats (menuItems : List MenuItem) : List OrderItem → List MenuItem
  | [] => menuItems
  | item :: rest =>
    bumpMenuStats
      (menuItems.map (fun m =>
        if decide (m.id = item.menuItem) then
          { m with totalOrders := m.totalOrders + item.quantity
                   popularity := m.popularity + item.quantity }
        else m))
      rest

/-- `createOrder` (src/unnamed/part_000:35-152). `newId` is the id Mongo
assigns to the created document and `now` the request time. -/
def createOrder (db : DB) (userId : Nat) (req : OrderRequest) (newId now : Nat)
    (serviceFeeRate surgeMultiplier commissionRate : ℚ) : Except ApiError DB :=
  match db.findRestaurant req.restaurant with
  | none => .error (.badRequest "Restaurant is not available for orders")
  | some restaurant =>
    if !restaurant.isActive || !restaurant.isOpen then
      .error (.badRequest "Restaurant is not available for orders")
    else if !(validPaymentMethods.contains req.paymentMethod) then
      .error (.badRequest "Invalid payment method")
    else
      match buildOrderItems db req.items with
      | none => .error (.badRequest "Menu item is not available")
      | some orderItems =>
        let pricing := calculatePricing orderItems restaurant.deliveryFee req.isSurgeTime
          serviceFeeRate surgeMultiplier commissionRate
        if pricing.subtotal < restaurant.minimumOrder then
          .error (.badRequest "Minimum order amount")
        else
          let order : Order :=
            { id := newId
              customer := userId
              restaurant := req.restaurant
              driver := none
              items := orderItems
              pricing := pricing
              status := .pending
              statusHistory := [⟨.pending, now⟩]
              payment := { method := req.paymentMethod, status := .pending, paidAt := none }
              acceptedAt := none
              preparedAt := none
              pickedUpAt := none
              deliveredAt := none
              cancellation := none
              isSurgeTime := req.isSurgeTime
              surgeMultiplier := if req.isSurgeTime then surgeMultiplier else 1
              createdAt := now }
          .ok { db with
                orders := db.orders ++ [order]
                menuItems := bumpMenuStats db.menuItems orderItems }

/-! ## Order listing (`getOrders`, src/unnamed/part_000:157-203) -/

/-- The Mongo query built by `getOrders`: role-based filter plus optional
status filter, before sorting and pagination. A caller with the restaurant
role who owns no restaurant leaves the query untouched. -/
def getOrdersQuery (db : DB) (userId : Nat) (role : Role)
    (statusFilter : Option OrderStatus) : List Order :=
  let roleFiltered :=
    match role with
    | .customer => db.orders.filter (fun o => decide (o.customer = userId))
    | .restaurant =>
      match db.restaurants.find? (fun r => decide (r.owner = userId)) with
      | some restaurant => db.orders.filter (fun o => decide (o.restaurant = restaurant.id))
      | none => db.orders
    | .driver => db.orders.filter (fun o => decide (o.driver = some userId))
    | .admin => db.orders
  match statusFilter with
  | some s => roleFiltered.filter (fun o => decide (o.status = s))
  | none => roleFiltered

/-- `getOrders`: query, sort by `-createdAt` (newest first, stable), skip
`(page − 1) × limit`, take `limit`. -/
def getOrders (db : DB) (userId : Nat) (role : Role) (statusFilter : Option OrderStatus)
    (page limit : Nat) : List Order :=
  let sorted := (getOrdersQuery db userId role statusFilter).mergeSort
    (fun a b => decide (b.createdAt ≤ a.createdAt))
  (sorted.drop ((page - 1) * limit)).take limit

/-! ## Status update (`updateOrderStatus`, src/unnamed/part_000:249-321) -/

/-- The statuses the restaurant owner is authorized to set. -/
def restaurantStatuses : List OrderStatus := [.confirmed, .preparing, .ready, .rejected]

/-- The statuses the assigned driver is authorized to set. -/
def driverStatuses : List OrderStatus := [.pickedUp, .onTheWay, .delivered]

/-- `updateOrderStatus` (src/unnamed/part_000:249-321). The controller has
no state-machine gate: it checks only who the caller is relative to the
target status, then assigns the status, stamps the matching milestone
timestamps, and saves. A missing restaurant document makes
`order.restaurant._id` throw, hence `serverError`. -/
def updateOrderStatus (db : DB) (userId orderId : Nat) (status : OrderStatus) (now : Nat) :
    Except ApiError DB :=
  match db.findOrder orderId with
  | none => .error (.notFound "Order not found")
  | some order =>
    match db.findRestaurant order.restaurant with
    | none => .error .serverError
    | some restaurant =>
      if restaurantStatuses.contains status && !(decide (restaurant.owner = userId)) then
        .error (.forbidden "Not authorized")
      else if driverStatuses.contains status
          && !(match order.driver with
               | some d => decide (d = userId)
               | none => false) then
        .error (.forbidden "Not authorized")
      else
        let o1 := { order with status := status }
        let o2 := if status = .confirmed then { o1 with acceptedAt := some now } else o1
        let o3 := if status = .ready then { o2 with preparedAt := some now } else o2
        let o4 := if status = .pickedUp then { o3 with pickedUpAt := some now } else o3
        let o5 :=
          if status = .delivered then
            { o4 with deliveredAt := some now
                      payment := { o4.payment with status := .completed, paidAt := some now } }
          else o4
        .ok (db.saveOrderIn (saveOrder order o5 now))

/-! ## Order cancellation (`cancelOrder`, src/unnamed/part_000:326-382) -/

/-- `cancelOrder` (src/unnamed/part_000:326-382): rejects only the statuses
`delivered` and `cancelled`, then authorizes the order's customer, the
owning restaurant, or an admin, then sets `cancelled` and records the
cancellation. -/
def cancelOrder (db : DB) (userId : Nat) (userRole : Role) (orderId : Nat) (reason : String)
    (now : Nat) : Except ApiError DB :=
  match db.findOrder orderId with
  | none => .error (.notFound "Order not found")
  | some order =>
    if order.status = .delivered ∨ order.status = .cancelled then
      .error (.badRequest "Order cannot be cancelled")
    else
      match db.findRestaurant order.restaurant with
      | none => .error .serverError
      | some restaurant =>
        let isCustomer := decide (order.customer = userId)
        let isRestaurant := decide (restaurant.owner = userId)
        if !isCustomer && !isRestaurant && !(decide (userRole = .admin)) then
          .error (.forbidden "Not authorized to cancel this order")
        else
          let o :=
            { order with
              status := .cancelled
              cancellation := some
                { reason := reason
                  cancelledBy :=
                    if isCustomer then .customer
                    else if isRestaurant then .restaurant
                    else .admin
                  cancelledAt := now } }
          .ok (db.saveOrderIn (saveOrder order o now))

/-! ## Delivery controllers (src/unnamed/part_002) -/

/-- `acceptOrder` (src/unnamed/part_002:77-128): check-and-set of the driver
on a `ready`, unassigned order, then flip the driver's availability off. -/
def acceptOrder (db : DB) (userId orderId : Nat) (now : Nat) : Except ApiError DB :=
  match db.findOrder orderId with
  | none => .error (.notFound "Order not found")
  | some order =>
    if order.status ≠ .ready then
      .error (.badRequest "Order is not ready for pickup")
    else if order.driver.isSome then
      .error (.badRequest "Order already assigned to another driver")
    else
      let o := { order with driver := some userId, status := .assigned }
      let db1 := db.saveOrderIn (saveOrder order o now)
      .ok { db1 with
            users := db1.users.map (fun u =>
              if decide (u.id = userId) then
                { u with driverProfile := { u.driverProfile with isAvailable := false } }
              else u) }

/-- `pickupOrder` (src/unnamed/part_002:133-176). A null `driver` makes
`order.driver.toString()` throw, hence `serverError`. -/
def pickupOrder (db : DB) (userId orderId : Nat) (now : Nat) : Except ApiError DB :=
  match db.findOrder orderId with
  | none => .error (.notFound "Order not found")
  | some order =>
    match order.driver with
    | none => .error .serverError
    | some d =>
      if d ≠ userId then
        .error (.forbidden "Not authorized")
      else if order.status ≠ .assigned then
        .error (.badRequest "Order status invalid for pickup")
      else
        let o := { order with status := .pickedUp, pickedUpAt := some now }
        .ok (db.saveOrderIn (saveOrder order o now))

/-- `completeDelivery` (src/unnamed/part_002:227-279): no status check at
all — any order whose assigned driver is the caller is marked delivered;
then the driver's stats and availability and the restaurant's cumulative
stats are updated. -/
def completeDelivery (db : DB) (userId orderId : Nat) (now : Nat) : Except ApiError DB :=
  match db.findOrder orderId with
  | none => .error (.notFound "Order not found")
  | some order =>
    match order.driver with
    | none => .error .serverError
    | some d =>
      if d ≠ userId then
        .error (.forbidden "Not authorized")
      else
        let o :=
          { order with
            status := .delivered
            deliveredAt := some now
            payment := { order.payment with status := .completed, paidAt := some now } }
        let db1 := db.saveOrderIn (saveOrder order o now)
        let db2 :=
          { db1 with
            users := db1.users.map (fun (u : User) =>
              if decide (u.id = userId) then
                { u with driverProfile :=
                    { isAvailable := true
                      totalDeliveries := u.driverProfile.totalDeliveries + 1 } }
              else u) }
        .ok { db2 with
              restaurants := db2.restaurants.map (fun (r : Restaurant) =>
                if decide (r.id = order.restaurant) then
                  { r with stats :=
                      { totalOrders := r.stats.totalOrders + 1
                        totalRevenue := r.stats.totalRevenue + order.pricing.restaurantEarnings } }
                else r) }

/-! ## Dispatch matching (`calculateDistance`, `getAvailableOrders`,
src/unnamed/part_002:6-72) -/

/-- JS `Math.atan2` on the reals. -/
noncomputable def atan2 (y x : ℝ) : ℝ :=
  if 0 < x then Real.arctan (y / x)
  else if x < 0 ∧ 0 ≤ y then Real.arctan (y / x) + Real.pi
  else if x < 0 ∧ y < 0 then Real.arctan (y / x) - Real.pi
  else if x = 0 ∧ 0 < y then Real.pi / 2
  else if x = 0 ∧ y < 0 then -(Real.pi / 2)
  else 0

/-- `calculateDistance` (src/unnamed/part_002:6-16): the haversine
great-circle distance in km. -/
noncomputable def calculateDistance (lat1 lon1 lat2 lon2 : ℝ) : ℝ :=
  let R : ℝ := 6371
  let dLat := (lat2 - lat1) * Real.pi / 180
  let dLon := (lon2 - lon1) * Real.pi / 180
  let a :=
    Real.sin (dLat / 2) * Real.sin (dLat / 2) +
      Real.cos (lat1 * Real.pi / 180) * Real.cos (lat2 * Real.pi / 180) *
        Real.sin (dLon / 2) * Real.sin (dLon / 2)
  let c := 2 * atan2 (Real.sqrt a) (Real.sqrt (1 - a))
  R * c

/-- An order paired with its computed distance, as returned to the driver. -/
structure CandidateOrder where
  order : Order
  distance : ℝ

/-- The `.map` step of `getAvailableOrders`: attach to each fetched order
the haversine distance from the driver to its restaurant
(`coordinates[1]` is the latitude, `coordinates[0]` the longitude). A
restaurant that fails to populate makes `order.restaurant.location` throw. -/
noncomputable def attachDistances (db : DB) (lat lng : ℝ) :
    List Order → Option (List CandidateOrder)
  | [] => some []
  | o :: rest =>
    match db.findRestaurant o.restaurant with
    | none => none
    | some r =>
      match attachDistances db lat lng rest with
      | none => none
      | some cs => some (⟨o, calculateDistance lat lng r.location.lat r.location.lng⟩ :: cs)

/-- `getAvailableOrders` (src/unnamed/part_002:21-72): fetch at most 20
`ready`, unassigned orders, attach distances, keep those within 10 km, and
sort ascending by distance (JS `Array.prototype.sort` is stable, modelled
by `List.mergeSort`). -/
noncomputable def getAvailableOrders (db : DB) (userId : Nat) (lat lng : ℝ) :
    Except ApiError (List CandidateOrder) :=
  match db.findUser userId with
  | none => .error .serverError
  | some driver =>
    if !driver.driverProfile.isAvailable then
      .error (.badRequest "Please mark yourself as available first")
    else
      let orders := (db.orders.filter
        (fun o => decide (o.status = .ready) && decide (o.driver = none))).take 20
      match attachDistances db lat lng orders with
      | none => .error .serverError
      | some withDistance =>
        .ok ((withDistance.filter (fun c => decide (c.distance ≤ 10))).mergeSort
          (fun a b => decide (a.distance ≤ b.distance)))

/-! ## Helper lemmas about keyed lookup and replacement -/

theorem find?_map_replace {α : Type} (key : α → Nat) (b : α) (k k' : Nat)
    (hk : k' = k) (hb : key b = k) :
    ∀ {l : List α} {a : α}, l.find? (fun x => decide (key x = k)) = some a →
      (l.map (fun x => if decide (key x = k') then b else x)).find?
        (fun x => decide (key x = k)) = some b := by
  intro l
  induction l with
  | nil => intro a h; simp at h
  | cons hd tl ih =>
    intro a h
    by_cases hhd : key hd = k
    · simp [hk, hhd, hb]
    · rw [List.find?_cons_of_neg _ (by simpa using hhd)] at h
      have hrep : (if decide (key hd = k') then b else hd) = hd := by
        simp [hk]; intro hc; exact absurd hc hhd
      rw [List.map_cons, hrep, List.find?_cons_of_neg _ (by simpa using hhd)]
      exact ih h

theorem find?_map_update {α : Type} (key : α → Nat) (f : α → α) (k : Nat)
    (hf : ∀ x, key (f x) = key x) :
    ∀ {l : List α} {a : α}, l.find? (fun x => decide (key x = k)) = some a →
      (l.map (fun x => if decide (key x = k) then f x else x)).find?
        (fun x => decide (key x = k)) = some (f a) := by
  intro l
  induction l with
  | nil => intro a h; simp at h
  | cons hd tl ih =>
    intro a h
    by_cases hhd : key hd = k
    · rw [List.find?_cons_of_pos _ (by simpa using hhd)] at h
      cases h
      rw [List.map_cons, if_pos (by simpa using hhd),
        List.find?_cons_of_pos _ (by simp [hf, hhd])]
    · rw [List.find?_cons_of_neg _ (by simpa using hhd)] at h
      rw [List.map_cons, if_neg (by simpa using hhd),
        List.find?_cons_of_neg _ (by simpa using hhd)]
      exact ih h

theorem saveOrder_id (original updated : Order) (now : Nat) :
    (saveOrder original updated now).id = updated.id := by
  unfold saveOrder; split <;> rfl

theorem saveOrder_status (original updated : Order) (now : Nat) :
    (saveOrder original updated now).status = updated.status := by
  unfold saveOrder; split <;> rfl

theorem saveOrder_cancellation (original updated : Order) (now : Nat) :
    (saveOrder original updated now).cancellation = updated.cancellation := by
  unfold saveOrder; split <;> rfl

/-- Looking up the saved order after `order.save()` returns the saved
document, provided the original was found at its id. -/
theorem findOrder_saveOrderIn (db : DB) (oid : Nat) (order saved : Order)
    (h : db.findOrder oid = some order) (hid : saved.id = order.id) :
    (db.saveOrderIn saved).findOrder oid = some saved := by
  have hkey : order.id = oid := by
    have := List.find?_some h
    simpa using this
  exact find?_map_replace Order.id saved oid saved.id (by rw [hid, hkey]) (by rw [hid, hkey]) h

/-- Specialization of `findOrder_saveOrderIn` to a document produced by the
status-history hook. -/
theorem findOrder_save_saveOrder (db : DB) (oid : Nat) (order updated : Order)
    (ho : db.findOrder oid = some order) (hid : updated.id = order.id) (now : Nat) :
    (db.saveOrderIn (saveOrder order updated now)).findOrder oid
      = some (saveOrder order updated now) :=
  findOrder_saveOrderIn db oid order _ ho (by rw [saveOrder_id]; exact hid)

/-! ## Result accessors and concrete store fixtures -/

/-- The status of the order `oid` in the store a controller returned, if it
succeeded. -/
def statusAfter (r : Except ApiError DB) (oid : Nat) : Option OrderStatus :=
  match r with
  | .ok db => (db.findOrder oid).map Order.status
  | .error _ => none

/-- The resulting store of a successful controller call. -/
def dbAfter : Except ApiError DB → Option DB
  | .ok db => some db
  | .error _ => none

/-- The availability flag of user `uid` in a store. -/
def driverAvailableIn (db : DB) (uid : Nat) : Option Bool :=
  (db.findUser uid).map (fun u => u.driverProfile.isAvailable)

/-- The cumulative delivery count of user `uid` in a store. -/
def driverDeliveriesIn (db : DB) (uid : Nat) : Option Nat :=
  (db.findUser uid).map (fun u => u.driverProfile.totalDeliveries)

/-- The cumulative revenue of restaurant `rid` in a store. -/
def restaurantRevenueIn (db : DB) (rid : Nat) : Option ℚ :=
  (db.findRestaurant rid).map (fun r => r.stats.totalRevenue)

/-- The cancellation record of order `oid` in the store a controller
returned. -/
def cancellationAfter (r : Except ApiError DB) (oid : Nat) : Option (Option Cancellation) :=
  match r with
  | .ok db => (db.findOrder oid).map Order.cancellation
  | .error _ => none

/-- A pricing snapshot fixture (subtotal 20, fee 3, 8% service fee, 20%
commission). -/
def basePricing : Pricing :=
  { subtotal := 20
    deliveryFee := 3
    serviceFee := 2
    tax := 0
    discount := 0
    total := 25
    platformCommission := 6
    restaurantEarnings := 16
    driverEarnings := 3 }

/-- A cash payment fixture. -/
def basePayment : Payment := { method := "cash", status := .pending, paidAt := none }

/-- A restaurant fixture: id 10, owned by user 30, located at the origin. -/
def exRestaurant : Restaurant :=
  { id := 10
    owner := 30
    isActive := true
    isOpen := true
    deliveryFee := 3
    minimumOrder := 1
    location := ⟨0, 0⟩
    stats := ⟨0, 0⟩ }

/-- An order fixture at restaurant 10 for customer 2, parameterized by id,
driver, status, delivered timestamp and creation time. -/
def mkOrder (oid : Nat) (driver : Option Nat) (status : OrderStatus) (createdAt : Nat) : Order :=
  { id := oid
    customer := 2
    restaurant := 10
    driver := driver
    items := []
    pricing := basePricing
    status := status
    statusHistory := [⟨.pending, 0⟩]
    payment := basePayment
    acceptedAt := none
    preparedAt := none
    pickedUpAt := none
    deliveredAt := none
    cancellation := none
    isSurgeTime := false
    surgeMultiplier := 1
    createdAt := createdAt }

/-! ## C1 — the status-update endpoint has no state-machine gate -/

/-- Store for the C1 counterexample: order 1 is already `delivered`, its
driver is user 7. -/
def exC1db : DB :=
  { orders := [mkOrder 1 (some 7) .delivered 0]
    users := [⟨7, .driver, ⟨false, 1⟩⟩]
    restaurants := [exRestaurant]
    menuItems := [] }

/-- C1 counterexample: the claim says updating an order whose status is
`delivered` fails for every target status; but driver 7 moving the
delivered order 1 back to `picked-up` succeeds, and the stored status
becomes `picked-up`. -/
theorem updateOrderStatus_delivered_not_terminal :
    statusAfter (updateOrderStatus exC1db 7 1 .pickedUp 5) 1 = some .pickedUp := by
  decide

/-- Store for the C1 witness: order 1 is `pending` with no driver. -/
def exC1pending : DB :=
  { orders := [mkOrder 1 none .pending 0]
    users := [⟨7, .driver, ⟨true, 0⟩⟩]
    restaurants := [exRestaurant]
    menuItems := [] }

/-- C1 amended: the status-update operation has no reachability check — its
only failures are `NotFound`, `Forbidden` and an internal error for a
dangling restaurant reference, never an invalid-transition error. Updating
a `pending` order directly to `delivered` does fail, but with `Forbidden`
(a pending order has no assigned driver), leaving the order unchanged; an
order whose status is `delivered` can be updated to any driver status by
its assigned driver (e.g. back to `picked-up`), and `completeDelivery`
likewise re-delivers an already delivered order. -/
theorem statusAfter_saveOrderIn (db : DB) (oid : Nat) (order updated : Order)
    (ho : db.findOrder oid = some order) (hid : updated.id = order.id) (now : Nat) :
    statusAfter (.ok (db.saveOrderIn (saveOrder order updated now))) oid
      = some updated.status := by
  simp only [statusAfter]
  rw [findOrder_saveOrderIn db oid order (saveOrder order updated now) ho
    (by rw [saveOrder_id, hid])]
  simp [saveOrder_status]

theorem updateOrderStatus_authorization_only (db : DB) (userId orderId now : Nat) :
    (∀ order r, db.findOrder orderId = some order →
        db.findRestaurant order.restaurant = some r →
        order.status = .pending → order.driver = none →
        updateOrderStatus db userId orderId .delivered now
          = .error (.forbidden "Not authorized"))
    ∧ (∀ order r, db.findOrder orderId = some order →
        db.findRestaurant order.restaurant = some r →
        order.status = .delivered → order.driver = some userId →
        statusAfter (updateOrderStatus db userId orderId .pickedUp now) orderId
          = some .pickedUp)
    ∧ (∀ status e, updateOrderStatus db userId orderId status now = .error e →
        e = .notFound "Order not found" ∨ e = .forbidden "Not authorized" ∨ e = .serverError)
    ∧ (∀ order, db.findOrder orderId = some order → order.driver = some userId →
        (completeDelivery db userId orderId now).isOk = true) := by
  refine ⟨?_, ?_, ?_, ?_⟩
  · intro order r ho hr hstatus hdriver
    simp only [updateOrderStatus, ho, hr]
    have h1 : (restaurantStatuses.contains OrderStatus.delivered
        && !decide (r.owner = userId)) = false := by
      rw [show restaurantStatuses.contains OrderStatus.delivered = false from rfl]
      rfl
    have h2 : (driverStatuses.contains OrderStatus.delivered
        && !(match order.driver with
             | some d => decide (d = userId)
             | none => false)) = true := by
      rw [hdriver]
      exact rfl
    rw [h1, h2]
    simp
  · intro order r ho hr hstatus hdriver
    simp only [updateOrderStatus, ho, hr]
    have h1 : (restaurantStatuses.contains OrderStatus.pickedUp
        && !decide (r.owner = userId)) = false := by
      rw [show restaurantStatuses.contains OrderStatus.pickedUp = false from rfl]
      rfl
    have h2 : (driverStatuses.contains OrderStatus.pickedUp
        && !(match order.driver with
             | some d => decide (d = userId)
             | none => false)) = false := by
      rw [hdriver]
      simp
    rw [h1, h2]
    simp only [Bool.false_eq_true, if_false]
    rw [statusAfter_saveOrderIn db orderId order]
    · rfl
    · exact ho
    · rfl
  · intro status e h
    unfold updateOrderStatus at h
    split at h
    · simp only [Except.error.injEq] at h
      exact Or.inl h.symm
    · split at h
      · simp only [Except.error.injEq] at h
        exact Or.inr (Or.inr h.symm)
      · split at h
        · simp only [Except.error.injEq] at h
          exact Or.inr (Or.inl h.symm)
        · split at h
          · simp only [Except.error.injEq] at h
            exact Or.inr (Or.inl h.symm)
          · exact absurd h (by simp)
  · intro order ho hd
    simp [completeDelivery, ho, hd, Except.isOk, Except.toBool]

/-- C1 witness: concrete instances of the amended claim — updating the
pending, driverless order 1 to `delivered` fails with `Forbidden`, and on
the delivered order of `exC1db` its driver can set `picked-up`. -/
theorem updateOrderStatus_authorization_only_witness :
    updateOrderStatus exC1pending 7 1 .delivered 5 = .error (.forbidden "Not authorized")
    ∧ statusAfter (updateOrderStatus exC1db 7 1 .pickedUp 5) 1 = some .pickedUp := by
  constructor
  · exact (updateOrderStatus_authorization_only exC1pending 7 1 5).1
      (mkOrder 1 none .pending 0) exRestaurant rfl rfl rfl rfl
  · exact (updateOrderStatus_authorization_only exC1db 7 1 5).2.1
      (mkOrder 1 (some 7) .delivered 0) exRestaurant rfl rfl rfl rfl

/-! ## C3 — driver accept / assignment -/

/-- The exact store produced by a successful `acceptOrder` call. -/
theorem acceptOrder_success (db : DB) (userId orderId now : Nat) (order : Order)
    (hfo : db.findOrder orderId = some order) (hs : order.status = .ready)
    (hd : order.driver = none) :
    acceptOrder db userId orderId now = .ok
      { db.saveOrderIn (saveOrder order
          { order with driver := some userId, status := .assigned } now) with
        users := (db.saveOrderIn (saveOrder order
            { order with driver := some userId, status := .assigned } now)).users.map
          (fun u => if decide (u.id = userId) = true then
              { u with driverProfile := { u.driverProfile with isAvailable := false } }
            else u) } := by
  simp only [acceptOrder, hfo]
  rw [if_neg (by simp [hs] : ¬(order.status ≠ OrderStatus.ready))]
  rw [if_neg (by simp [hd] : ¬(order.driver.isSome = true))]

/-- C3: the driver-accept operation succeeds exactly when the order exists,
its status is `ready` and its driver is null; it fails with `NotFound` for
a missing order, with the not-ready error when the status is not `ready`,
and with the already-assigned error when a driver is set; on success it
sets the driver, sets the status to `assigned`, and flips the accepting
driver's availability to false. -/
theorem acceptOrder_spec (db : DB) (userId orderId now : Nat) :
    ((acceptOrder db userId orderId now).isOk = true ↔
      ∃ order, db.findOrder orderId = some order
        ∧ order.status = .ready ∧ order.driver = none)
    ∧ (db.findOrder orderId = none →
        acceptOrder db userId orderId now = .error (.notFound "Order not found"))
    ∧ (∀ order, db.findOrder orderId = some order → order.status ≠ .ready →
        acceptOrder db userId orderId now
          = .error (.badRequest "Order is not ready for pickup"))
    ∧ (∀ order, db.findOrder orderId = some order → order.status = .ready →
        order.driver.isSome = true →
        acceptOrder db userId orderId now
          = .error (.badRequest "Order already assigned to another driver"))
    ∧ (∀ order, db.findOrder orderId = some order → order.status = .ready →
        order.driver = none →
        ∃ db', acceptOrder db userId orderId now = .ok db'
          ∧ db'.findOrder orderId = some (saveOrder order
              { order with driver := some userId, status := .assigned } now)
          ∧ (∀ u, db.findUser userId = some u →
              db'.findUser userId = some
                { u with driverProfile := { u.driverProfile with isAvailable := false } })) := by
  refine ⟨⟨?_, ?_⟩, ?_, ?_, ?_, ?_⟩
  · intro hok
    cases hfo : db.findOrder orderId with
    | none =>
      rw [show acceptOrder db userId orderId now = .error (.notFound "Order not found") from
        by simp [acceptOrder, hfo]] at hok
      exact absurd hok (by simp [Except.isOk, Except.toBool])
    | some order =>
      by_cases hs : order.status = .ready
      · cases hd : order.driver with
        | none => exact ⟨order, rfl, hs, hd⟩
        | some d =>
          rw [show acceptOrder db userId orderId now
              = .error (.badRequest "Order already assigned to another driver") from
            by simp [acceptOrder, hfo, hs, hd]] at hok
          exact absurd hok (by simp [Except.isOk, Except.toBool])
      · rw [show acceptOrder db userId orderId now
            = .error (.badRequest "Order is not ready for pickup") from
          by simp [acceptOrder, hfo, hs]] at hok
        exact absurd hok (by simp [Except.isOk, Except.toBool])
  · rintro ⟨order, hfo, hs, hd⟩
    simp [acceptOrder, hfo, hs, hd, Except.isOk, Except.toBool]
  · intro hfo
    simp [acceptOrder, hfo]
  · intro order hfo hs
    simp [acceptOrder, hfo, hs]
  · intro order hfo hs hd
    simp [acceptOrder, hfo, hs, hd]
  · intro order hfo hs hd
    refine ⟨_, acceptOrder_success db userId orderId now order hfo hs hd, ?_, ?_⟩
    · exact findOrder_saveOrderIn db orderId order _ hfo (by rw [saveOrder_id])
    · intro u hu
      exact find?_map_update User.id
        (fun u => { u with driverProfile := { u.driverProfile with isAvailable := false } })
        userId (fun _ => rfl) hu

/-- Store for the C3 witness: order 1 is `ready` and unassigned, user 7 is
an available driver. -/
def exC3db : DB :=
  { orders := [mkOrder 1 none .ready 0]
    users := [⟨7, .driver, ⟨true, 0⟩⟩]
    restaurants := [exRestaurant]
    menuItems := [] }

/-- C3 witness: driver 7 accepting the ready unassigned order 1 succeeds,
the stored order becomes `assigned`, and driver 7 becomes unavailable. -/
theorem acceptOrder_spec_witness :
    (acceptOrder exC3db 7 1 5).isOk = true
    ∧ statusAfter (acceptOrder exC3db 7 1 5) 1 = some .assigned
    ∧ (dbAfter (acceptOrder exC3db 7 1 5)).bind (fun db => driverAvailableIn db 7)
        = some false := by
  obtain ⟨db', heq, hfind, husers⟩ :=
    (acceptOrder_spec exC3db 7 1 5).2.2.2.2 (mkOrder 1 none .ready 0) rfl rfl rfl
  have hu := husers ⟨7, .driver, ⟨true, 0⟩⟩ rfl
  refine ⟨?_, ?_, ?_⟩
  · rw [heq]; rfl
  · rw [heq]
    simp [statusAfter, hfind, saveOrder_status]
  · rw [heq]
    simp [dbAfter, driverAvailableIn, hu]

/-! ## C5 — effects of reaching `delivered` -/

/-- The exact store produced by a successful `completeDelivery` call. -/
theorem completeDelivery_success (db : DB) (userId orderId now : Nat) (order : Order)
    (hfo : db.findOrder orderId = some order) (hd : order.driver = some userId) :
    completeDelivery db userId orderId now = .ok
      { orders := (db.saveOrderIn (saveOrder order
          { order with
            status := .delivered
            deliveredAt := some now
            payment := { order.payment with status := .completed, paidAt := some now } }
          now)).orders
        users := db.users.map
          (fun (u : User) => if decide (u.id = userId) = true then
              { u with driverProfile :=
                  { isAvailable := true
                    totalDeliveries := u.driverProfile.totalDeliveries + 1 } }
            else u)
        restaurants := db.restaurants.map
          (fun (r : Restaurant) => if decide (r.id = order.restaurant) = true then
              { r with stats :=
                  { totalOrders := r.stats.totalOrders + 1
                    totalRevenue := r.stats.totalRevenue + order.pricing.restaurantEarnings } }
            else r)
        menuItems := db.menuItems } := by
  simp only [completeDelivery, hfo, hd]
  rw [if_neg (by simp : ¬(userId ≠ userId))]
  exact rfl

/-- The exact store produced by `updateOrderStatus` when the assigned
driver sets `delivered`. -/
theorem updateOrderStatus_delivered_success (db : DB) (userId orderId now : Nat)
    (order : Order) (r : Restaurant)
    (hfo : db.findOrder orderId = some order)
    (hfr : db.findRestaurant order.restaurant = some r)
    (hd : order.driver = some userId) :
    updateOrderStatus db userId orderId .delivered now
      = .ok (db.saveOrderIn (saveOrder order
          { order with
            status := .delivered
            deliveredAt := some now
            payment := { order.payment with status := .completed, paidAt := some now } }
          now)) := by
  simp only [updateOrderStatus, hfo, hfr]
  have h1 : (restaurantStatuses.contains OrderStatus.delivered
      && !decide (r.owner = userId)) = false := by
    rw [show restaurantStatuses.contains OrderStatus.delivered = false from rfl]
    rfl
  have h2 : (driverStatuses.contains OrderStatus.delivered
      && !(match order.driver with
           | some d => decide (d = userId)
           | none => false)) = false := by
    rw [hd]
    simp
  rw [h1, h2]
  simp only [Bool.false_eq_true, if_false]
  exact rfl

/-- C5 amended: only `completeDelivery` performs the full delivered-effects
bundle (deliveredAt, payment completed and paidAt, driver delivery count
incremented, driver availability reset to true, restaurant revenue
incremented by `restaurantEarnings`); the `updateOrderStatus` path to
`delivered` stamps deliveredAt and the payment fields but leaves the user
and restaurant collections completely untouched. -/
theorem delivered_effects_by_path (db : DB) (userId orderId now : Nat) :
    (∀ order, db.findOrder orderId = some order → order.driver = some userId →
      ∃ db', completeDelivery db userId orderId now = .ok db'
        ∧ db'.findOrder orderId = some (saveOrder order
            { order with
              status := .delivered
              deliveredAt := some now
              payment := { order.payment with status := .completed, paidAt := some now } }
            now)
        ∧ (∀ u, db.findUser userId = some u →
            db'.findUser userId = some { u with driverProfile :=
              { isAvailable := true
                totalDeliveries := u.driverProfile.totalDeliveries + 1 } })
        ∧ (∀ r, db.findRestaurant order.restaurant = some r →
            db'.findRestaurant order.restaurant = some { r with stats :=
              { totalOrders := r.stats.totalOrders + 1
                totalRevenue := r.stats.totalRevenue + order.pricing.restaurantEarnings } }))
    ∧ (∀ db', updateOrderStatus db userId orderId .delivered now = .ok db' →
        db'.users = db.users ∧ db'.restaurants = db.restaurants)
    ∧ (∀ order db', db.findOrder orderId = some order →
        updateOrderStatus db userId orderId .delivered now = .ok db' →
        db'.findOrder orderId = some (saveOrder order
          { order with
            status := .delivered
            deliveredAt := some now
            payment := { order.payment with status := .completed, paidAt := some now } }
          now)) := by
  refine ⟨?_, ?_, ?_⟩
  · intro order hfo hd
    refine ⟨_, completeDelivery_success db userId orderId now order hfo hd, ?_, ?_, ?_⟩
    · exact findOrder_saveOrderIn db orderId order _ hfo (by rw [saveOrder_id])
    · intro u hu
      exact find?_map_update User.id
        (fun u => { u with driverProfile :=
          { isAvailable := true, totalDeliveries := u.driverProfile.totalDeliveries + 1 } })
        userId (fun _ => rfl) hu
    · intro r hr
      exact find?_map_update Restaurant.id
        (fun r => { r with stats :=
          { totalOrders := r.stats.totalOrders + 1
            totalRevenue := r.stats.totalRevenue + order.pricing.restaurantEarnings } })
        order.restaurant (fun _ => rfl) hr
  · intro db' hok
    unfold updateOrderStatus at hok
    split at hok
    · exact absurd hok (by simp)
    · split at hok
      · exact absurd hok (by simp)
      · split at hok
        · exact absurd hok (by simp)
        · split at hok
          · exact absurd hok (by simp)
          · simp only [Except.ok.injEq] at hok
            subst hok
            exact ⟨rfl, rfl⟩
  · intro order db' hfo hok
    cases hfr : db.findRestaurant order.restaurant with
    | none =>
      rw [show updateOrderStatus db userId orderId .delivered now = .error .serverError from
        by simp only [updateOrderStatus, hfo, hfr]] at hok
      exact absurd hok (by simp)
    | some r =>
      cases hdr : order.driver with
      | none =>
        have herr : updateOrderStatus db userId orderId .delivered now
            = .error (.forbidden "Not authorized") := by
          simp only [updateOrderStatus, hfo, hfr]
          have h1 : (restaurantStatuses.contains OrderStatus.delivered
              && !decide (r.owner = userId)) = false := by
            rw [show restaurantStatuses.contains OrderStatus.delivered = false from rfl]
            rfl
          have h2 : (driverStatuses.contains OrderStatus.delivered
              && !(match order.driver with
                   | some d => decide (d = userId)
                   | none => false)) = true := by
            rw [hdr]
            exact rfl
          rw [h1, h2]
          simp
        rw [herr] at hok
        exact absurd hok (by simp)
      | some d =>
        by_cases hdu : d = userId
        · subst hdu
          rw [updateOrderStatus_delivered_success db d orderId now order r hfo hfr hdr] at hok
          injection hok with h
          subst h
          rw [hdr]
          exact findOrder_save_saveOrder db orderId order _ hfo (by rfl) now
        · have herr : updateOrderStatus db userId orderId .delivered now
              = .error (.forbidden "Not authorized") := by
            simp only [updateOrderStatus, hfo, hfr]
            have h1 : (restaurantStatuses.contains OrderStatus.delivered
                && !decide (r.owner = userId)) = false := by
              rw [show restaurantStatuses.contains OrderStatus.delivered = false from rfl]
              rfl
            have h2 : (driverStatuses.contains OrderStatus.delivered
                && !(match order.driver with
                     | some d => decide (d = userId)
                     | none => false)) = true := by
              rw [hdr]
              show (driverStatuses.contains OrderStatus.delivered
                && !decide (d = userId)) = true
              rw [show decide (d = userId) = false from by simp [hdu]]
              exact rfl
            rw [h1, h2]
            simp
          rw [herr] at hok
          exact absurd hok (by simp)

/-- Store for the C5 counterexample: order 1 is `on-the-way` with driver 7
(3 past deliveries, currently unavailable); restaurant 10 has zero
cumulative revenue. -/
def exC5db : DB :=
  { orders := [mkOrder 1 (some 7) .onTheWay 0]
    users := [⟨7, .driver, ⟨false, 3⟩⟩]
    restaurants := [exRestaurant]
    menuItems := [] }

/-- The C5 counterexample run: driver 7 sets `delivered` through the
status-update endpoint. -/
def exC5result : Except ApiError DB := updateOrderStatus exC5db 7 1 .delivered 9

/-- C5 counterexample: the status-update path to `delivered` succeeds, yet
driver 7's availability stays false, the delivery count stays 3, and
restaurant 10's revenue stays 0 — the claim's stats bundle does not happen
on this code path. -/
theorem updateOrderStatus_delivered_skips_stats :
    statusAfter exC5result 1 = some .delivered
    ∧ (dbAfter exC5result).bind (fun db => driverAvailableIn db 7) = some false
    ∧ (dbAfter exC5result).bind (fun db => driverDeliveriesIn db 7) = some 3
    ∧ (dbAfter exC5result).bind (fun db => restaurantRevenueIn db 10) = some 0 := by
  decide

/-- Store for the C5 witness: order 1 is `picked-up` with driver 7. -/
def exC5done : DB :=
  { orders := [mkOrder 1 (some 7) .pickedUp 0]
    users := [⟨7, .driver, ⟨false, 3⟩⟩]
    restaurants := [exRestaurant]
    menuItems := [] }

/-- C5 witness: `completeDelivery` by driver 7 succeeds and performs the
whole bundle — availability true, delivery count 3 → 4, restaurant revenue
0 → 16 (the order's `restaurantEarnings`). -/
theorem delivered_effects_by_path_witness :
    (completeDelivery exC5done 7 1 9).isOk = true
    ∧ (dbAfter (completeDelivery exC5done 7 1 9)).bind (fun db => driverAvailableIn db 7)
        = some true
    ∧ (dbAfter (completeDelivery exC5done 7 1 9)).bind (fun db => driverDeliveriesIn db 7)
        = some 4
    ∧ (dbAfter (completeDelivery exC5done 7 1 9)).bind (fun db => restaurantRevenueIn db 10)
        = some 16 := by
  obtain ⟨db', heq, hord, husers, hrest⟩ :=
    (delivered_effects_by_path exC5done 7 1 9).1 (mkOrder 1 (some 7) .pickedUp 0) rfl rfl
  have hu := husers ⟨7, .driver, ⟨false, 3⟩⟩ rfl
  have hr := hrest exRestaurant rfl
  refine ⟨?_, ?_, ?_, ?_⟩
  · rw [heq]; rfl
  · rw [heq]; simp [dbAfter, driverAvailableIn, hu]
  · rw [heq]; simp [dbAfter, driverDeliveriesIn, hu]
  · rw [heq]
    have hr10 : db'.findRestaurant 10
        = some { exRestaurant with stats :=
            { totalOrders := exRestaurant.stats.totalOrders + 1
              totalRevenue := exRestaurant.stats.totalRevenue
                + (mkOrder 1 (some 7) OrderStatus.pickedUp 0).pricing.restaurantEarnings } } :=
      hr
    simp [dbAfter, restaurantRevenueIn, hr10, exRestaurant, mkOrder, basePricing]

/-! ## C6 — order cancellation -/

/-- The exact store produced by a successful `cancelOrder` call. -/
theorem cancelOrder_success (db : DB) (userId : Nat) (role : Role) (orderId : Nat)
    (reason : String) (now : Nat) (order : Order) (r : Restaurant)
    (hfo : db.findOrder orderId = some order)
    (hnd : ¬(order.status = .delivered ∨ order.status = .cancelled))
    (hfr : db.findRestaurant order.restaurant = some r)
    (hauth : (!decide (order.customer = userId) && !decide (r.owner = userId)
        && !decide (role = .admin)) = false) :
    cancelOrder db userId role orderId reason now = .ok
      (db.saveOrderIn (saveOrder order
        { order with
          status := .cancelled
          cancellation := some
            { reason := reason
              cancelledBy :=
                if decide (order.customer = userId) then CancelActor.customer
                else if decide (r.owner = userId) then CancelActor.restaurant
                else CancelActor.admin
              cancelledAt := now } }
        now)) := by
  simp only [cancelOrder, hfo, hfr]
  rw [if_neg hnd, hauth]
  simp only [Bool.false_eq_true, if_false]

/-- C6 amended: cancellation is blocked only for `delivered` and `cancelled`
orders — a `rejected` order can still be cancelled — and requires the
order's customer, the owning restaurant, or an admin; on success it sets
status `cancelled` and records `{reason, cancelledBy, cancelledAt}`, with
`cancelledBy = "customer"` whenever the caller is the order's customer. -/
theorem cancelOrder_spec (db : DB) (userId : Nat) (role : Role) (orderId : Nat)
    (reason : String) (now : Nat) :
    ((cancelOrder db userId role orderId reason now).isOk = true ↔
      ∃ order, db.findOrder orderId = some order
        ∧ order.status ≠ .delivered ∧ order.status ≠ .cancelled
        ∧ ∃ r, db.findRestaurant order.restaurant = some r
            ∧ (order.customer = userId ∨ r.owner = userId ∨ role = .admin))
    ∧ (∀ order r, db.findOrder orderId = some order →
        db.findRestaurant order.restaurant = some r →
        order.status ≠ .delivered → order.status ≠ .cancelled →
        order.customer = userId →
        ∃ db', cancelOrder db userId role orderId reason now = .ok db'
          ∧ db'.findOrder orderId = some (saveOrder order
              { order with
                status := .cancelled
                cancellation := some
                  { reason := reason, cancelledBy := .customer, cancelledAt := now } }
              now))
    ∧ (∀ order, db.findOrder orderId = some order →
        (order.status = .delivered ∨ order.status = .cancelled) →
        cancelOrder db userId role orderId reason now
          = .error (.badRequest "Order cannot be cancelled")) := by
  refine ⟨⟨?_, ?_⟩, ?_, ?_⟩
  · intro hok
    cases hfo : db.findOrder orderId with
    | none =>
      rw [show cancelOrder db userId role orderId reason now
          = .error (.notFound "Order not found") from by simp [cancelOrder, hfo]] at hok
      exact absurd hok (by simp [Except.isOk, Except.toBool])
    | some order =>
      by_cases hterm : order.status = .delivered ∨ order.status = .cancelled
      · rw [show cancelOrder db userId role orderId reason now
            = .error (.badRequest "Order cannot be cancelled") from by
          simp only [cancelOrder, hfo]
          rw [if_pos hterm]] at hok
        exact absurd hok (by simp [Except.isOk, Except.toBool])
      · cases hfr : db.findRestaurant order.restaurant with
        | none =>
          rw [show cancelOrder db userId role orderId reason now = .error .serverError from by
            simp only [cancelOrder, hfo, hfr]
            rw [if_neg hterm]] at hok
          exact absurd hok (by simp [Except.isOk, Except.toBool])
        | some r =>
          by_cases hauth : order.customer = userId ∨ r.owner = userId ∨ role = .admin
          · rw [not_or] at hterm
            exact ⟨order, rfl, hterm.1, hterm.2, r, hfr, hauth⟩
          · rw [not_or, not_or] at hauth
            rw [show cancelOrder db userId role orderId reason now
                = .error (.forbidden "Not authorized to cancel this order") from by
              simp only [cancelOrder, hfo, hfr]
              rw [if_neg hterm]
              rw [show (!decide (order.customer = userId) && !decide (r.owner = userId)
                  && !decide (role = .admin)) = true from by
                simp [hauth.1, hauth.2.1, hauth.2.2]]
              simp] at hok
            exact absurd hok (by simp [Except.isOk, Except.toBool])
  · rintro ⟨order, hfo, h1, h2, r, hfr, hauth⟩
    rw [cancelOrder_success db userId role orderId reason now order r hfo
      (by rw [not_or]; exact ⟨h1, h2⟩) hfr (by rcases hauth with h | h | h <;> simp [h])]
    rfl
  · intro order r hfo hfr h1 h2 hc
    refine ⟨_, cancelOrder_success db userId role orderId reason now order r hfo
      (by rw [not_or]; exact ⟨h1, h2⟩) hfr (by simp [hc]), ?_⟩
    rw [show (if decide (order.customer = userId) = true then CancelActor.customer
        else if decide (r.owner = userId) = true then CancelActor.restaurant
        else CancelActor.admin) = CancelActor.customer from by simp [hc]]
    exact findOrder_save_saveOrder db orderId order _ hfo (by rfl) now
  · intro order hfo hterm
    simp only [cancelOrder, hfo]
    rw [if_pos hterm]

/-- Store for the C6 counterexample: order 1 was `rejected` by the
restaurant; user 2 is the customer who placed it. -/
def exC6db : DB :=
  { orders := [mkOrder 1 none .rejected 0]
    users := []
    restaurants := [exRestaurant]
    menuItems := [] }

/-- C6 counterexample: the claim says a `rejected` order can never be
cancelled, but the customer cancelling the rejected order 1 succeeds and
the stored status becomes `cancelled`. -/
theorem cancelOrder_rejected_not_blocked :
    statusAfter (cancelOrder exC6db 2 .customer 1 "changed mind" 5) 1
      = some .cancelled := by
  decide

/-- Store for the C6 witness: order 1 is `pending`; user 2 is its
customer. -/
def exC6pending : DB :=
  { orders := [mkOrder 1 none .pending 0]
    users := []
    restaurants := [exRestaurant]
    menuItems := [] }

/-- C6 witness: the customer cancelling their `pending` order with reason
"changed mind" succeeds, records `cancelledBy = customer`, and sets the
status to `cancelled`. -/
theorem cancelOrder_spec_witness :
    (cancelOrder exC6pending 2 .customer 1 "changed mind" 5).isOk = true
    ∧ cancellationAfter (cancelOrder exC6pending 2 .customer 1 "changed mind" 5) 1
        = some (some ⟨"changed mind", .customer, 5⟩)
    ∧ statusAfter (cancelOrder exC6pending 2 .customer 1 "changed mind" 5) 1
        = some .cancelled := by
  obtain ⟨db', heq, hfind⟩ :=
    (cancelOrder_spec exC6pending 2 .customer 1 "changed mind" 5).2.1
      (mkOrder 1 none .pending 0) exRestaurant rfl rfl (by decide) (by decide) rfl
  refine ⟨?_, ?_, ?_⟩
  · rw [heq]; rfl
  · rw [heq]
    simp [cancellationAfter, hfind, saveOrder_cancellation]
  · rw [heq]
    simp [statusAfter, hfind, saveOrder_status]

/-! ## C8 — minimum-order rejection at placement -/

/-- C8: a placement whose computed subtotal is strictly below the
restaurant's minimum order fails with the business-rule error, and no order
is ever persisted by such a call (the operation never returns a store). -/
theorem createOrder_minimum_order (db : DB) (userId : Nat) (req : OrderRequest)
    (newId now : Nat) (serviceFeeRate surgeMultiplier commissionRate : ℚ)
    (restaurant : Restaurant) (orderItems : List OrderItem)
    (hr : db.findRestaurant req.restaurant = some restaurant)
    (hactive : restaurant.isActive = true) (hopen : restaurant.isOpen = true)
    (hpm : validPaymentMethods.contains req.paymentMethod = true)
    (hitems : buildOrderItems db req.items = some orderItems)
    (hmin : (calculatePricing orderItems restaurant.deliveryFee req.isSurgeTime
        serviceFeeRate surgeMultiplier commissionRate).subtotal < restaurant.minimumOrder) :
    createOrder db userId req newId now serviceFeeRate surgeMultiplier commissionRate
      = .error (.badRequest "Minimum order amount")
    ∧ ∀ db', createOrder db userId req newId now serviceFeeRate surgeMultiplier commissionRate
        ≠ .ok db' := by
  have herr : createOrder db userId req newId now serviceFeeRate surgeMultiplier commissionRate
      = .error (.badRequest "Minimum order amount") := by
    simp only [createOrder, hr, hitems, hactive, hopen, hpm]
    rw [if_neg (by decide : ¬((!true || !true) = true))]
    rw [if_neg (by decide : ¬((!true) = true))]
    rw [if_pos hmin]
  exact ⟨herr, fun db' hok => by rw [herr] at hok; exact absurd hok (by simp)⟩

/-- Restaurant fixture for the C8 witness: minimum order 10. -/
def exC8restaurant : Restaurant :=
  { id := 10
    owner := 30
    isActive := true
    isOpen := true
    deliveryFee := 3
    minimumOrder := 10
    location := ⟨0, 0⟩
    stats := ⟨0, 0⟩ }

/-- Store for the C8 witness: one menu item priced 4. -/
def exC8db : DB :=
  { orders := []
    users := []
    restaurants := [exC8restaurant]
    menuItems := [⟨100, "Burger", 4, true, 0, 0⟩] }

/-- Request for the C8 witness: two units of item 100, so the subtotal is
8 against a minimum of 10. -/
def exC8req : OrderRequest :=
  { restaurant := 10
    items := [⟨100, 2, []⟩]
    paymentMethod := "cash"
    isSurgeTime := false }

/-- C8 witness: subtotal 8 against minimum 10 rejects the placement. -/
theorem createOrder_minimum_order_witness :
    createOrder exC8db 2 exC8req 1 0 (2/25) (3/2) (1/5)
      = .error (.badRequest "Minimum order amount") :=
  (createOrder_minimum_order exC8db 2 exC8req 1 0 (2/25) (3/2) (1/5) exC8restaurant _
    rfl rfl rfl (by decide) rfl
    (by norm_num [calculatePricing, itemSubtotal, exC8restaurant,
      List.foldl_cons, List.foldl_nil])).1

/-! ## C7 — the status-history audit log -/

/-- Store for the C7 lifecycle run: the freshly placed pending order 1
(creation wrote the `pending` history entry at time 0), its customer 2, the
restaurant owner 30, and driver 7. -/
def exLifeDB : DB :=
  { orders := [mkOrder 1 none .pending 0]
    users := [⟨2, .customer, ⟨false, 0⟩⟩, ⟨30, .restaurant, ⟨false, 0⟩⟩, ⟨7, .driver, ⟨true, 0⟩⟩]
    restaurants := [exRestaurant]
    menuItems := [] }

/-- The full lifecycle: the restaurant confirms, prepares and readies the
order, driver 7 accepts, picks up and completes it, at times 1 to 6. -/
def lifecycleRun : Except ApiError DB :=
  updateOrderStatus exLifeDB 30 1 .confirmed 1 >>= fun db2 =>
  updateOrderStatus db2 30 1 .preparing 2 >>= fun db3 =>
  updateOrderStatus db3 30 1 .ready 3 >>= fun db4 =>
  acceptOrder db4 7 1 4 >>= fun db5 =>
  pickupOrder db5 7 1 5 >>= fun db6 =>
  completeDelivery db6 7 1 6

/-- The status history of order `oid` in the store a controller returned. -/
def historyAfter (r : Except ApiError DB) (oid : Nat) : Option (List StatusEntry) :=
  match r with
  | .ok db => (db.findOrder oid).map Order.statusHistory
  | .error _ => none

/-- C7: the pre-save hook appends exactly one `{status, timestamp}` entry
when the saved status differs from the stored one and none otherwise, and
never removes or rewrites existing entries (the old log is always a prefix
of the new one); order creation persists the initial `pending` entry; and
the full lifecycle pending → confirmed → preparing → ready → assigned →
picked-up → delivered leaves exactly seven entries in that order with
non-decreasing timestamps 0..6. -/
theorem statusHistory_appendOnly (original updated : Order) (now : Nat) :
    (updated.status ≠ original.status →
        (saveOrder original updated now).statusHistory
          = updated.statusHistory ++ [⟨updated.status, now⟩])
    ∧ (updated.status = original.status →
        (saveOrder original updated now).statusHistory = updated.statusHistory)
    ∧ (updated.statusHistory = original.statusHistory →
        original.statusHistory <+: (saveOrder original updated now).statusHistory)
    ∧ (∀ (db : DB) (userId : Nat) (req : OrderRequest) (newId t : Nat)
        (r1 r2 r3 : ℚ) (db' : DB),
        createOrder db userId req newId t r1 r2 r3 = .ok db' →
        ∃ o, db'.orders = db.orders ++ [o] ∧ o.status = .pending
          ∧ o.statusHistory = [⟨.pending, t⟩])
    ∧ historyAfter lifecycleRun 1 = some
        [⟨.pending, 0⟩, ⟨.confirmed, 1⟩, ⟨.preparing, 2⟩, ⟨.ready, 3⟩,
         ⟨.assigned, 4⟩, ⟨.pickedUp, 5⟩, ⟨.delivered, 6⟩] := by
  refine ⟨?_, ?_, ?_, ?_, ?_⟩
  · intro hne
    unfold saveOrder
    rw [if_neg hne]
  · intro heq
    unfold saveOrder
    rw [if_pos heq]
  · intro hsame
    unfold saveOrder
    split
    · rw [hsame]
    · rw [hsame]
      exact List.prefix_append _ _
  · intro db userId req newId t r1 r2 r3 db' hok
    unfold createOrder at hok
    split at hok
    · exact absurd hok (by simp)
    · split at hok
      · exact absurd hok (by simp)
      · split at hok
        · exact absurd hok (by simp)
        · split at hok
          · exact absurd hok (by simp)
          · rename_i x1 rst hrst hact hpay x2 its hits
            dsimp only at hok
            by_cases hmin : (calculatePricing its rst.deliveryFee req.isSurgeTime
                r1 r2 r3).subtotal < rst.minimumOrder
            · rw [if_pos hmin] at hok
              exact absurd hok (by simp)
            · rw [if_neg hmin] at hok
              injection hok with h
              subst h
              exact ⟨_, rfl, rfl, rfl⟩
  · decide

/-- C7 witness: concrete instances of the hook clauses — saving the pending
order with status `confirmed` at time 1 appends exactly the `confirmed`
entry, saving it back unchanged appends nothing, and the old log is a
prefix of the new one. -/
theorem statusHistory_appendOnly_witness :
    (saveOrder (mkOrder 1 none .pending 0)
        { mkOrder 1 none .pending 0 with status := .confirmed } 1).statusHistory
      = [⟨.pending, 0⟩, ⟨.confirmed, 1⟩]
    ∧ (saveOrder (mkOrder 1 none .pending 0) (mkOrder 1 none .pending 0) 1).statusHistory
      = [⟨.pending, 0⟩]
    ∧ (mkOrder 1 none .pending 0).statusHistory <+:
        (saveOrder (mkOrder 1 none .pending 0)
          { mkOrder 1 none .pending 0 with status := .confirmed } 1).statusHistory := by
  refine ⟨?_, ?_, ?_⟩
  · rw [(statusHistory_appendOnly (mkOrder 1 none .pending 0)
      { mkOrder 1 none .pending 0 with status := .confirmed } 1).1 (by decide)]
    rfl
  · rw [(statusHistory_appendOnly (mkOrder 1 none .pending 0)
      (mkOrder 1 none .pending 0) 1).2.1 rfl]
    rfl
  · exact (statusHistory_appendOnly (mkOrder 1 none .pending 0)
      { mkOrder 1 none .pending 0 with status := .confirmed } 1).2.2.1 rfl

/-! ## C9 — role-scoped listing and pagination -/

theorem mem_getOrders {db : DB} {userId : Nat} {role : Role}
    {statusFilter : Option OrderStatus} {page limit : Nat} {o : Order}
    (h : o ∈ getOrders db userId role statusFilter page limit) :
    o ∈ getOrdersQuery db userId role statusFilter := by
  unfold getOrders at h
  exact List.mem_mergeSort.mp (List.mem_of_mem_drop (List.mem_of_mem_take h))

theorem getOrdersQuery_customer {db : DB} {userId : Nat}
    {statusFilter : Option OrderStatus} {o : Order}
    (h : o ∈ getOrdersQuery db userId .customer statusFilter) :
    o.customer = userId := by
  unfold getOrdersQuery at h
  cases statusFilter with
  | none => simpa using (List.mem_filter.mp h).2
  | some s => simpa using (List.mem_filter.mp (List.mem_filter.mp h).1).2

theorem getOrdersQuery_driver {db : DB} {userId : Nat}
    {statusFilter : Option OrderStatus} {o : Order}
    (h : o ∈ getOrdersQuery db userId .driver statusFilter) :
    o.driver = some userId := by
  unfold getOrdersQuery at h
  cases statusFilter with
  | none => simpa using (List.mem_filter.mp h).2
  | some s => simpa using (List.mem_filter.mp (List.mem_filter.mp h).1).2

theorem getOrdersQuery_restaurant {db : DB} {userId : Nat}
    {statusFilter : Option OrderStatus} {o : Order} {restaurant : Restaurant}
    (hr : db.restaurants.find? (fun r => decide (r.owner = userId)) = some restaurant)
    (h : o ∈ getOrdersQuery db userId .restaurant statusFilter) :
    o.restaurant = restaurant.id := by
  unfold getOrdersQuery at h
  rw [hr] at h
  cases statusFilter with
  | none => simpa using (List.mem_filter.mp h).2
  | some s => simpa using (List.mem_filter.mp (List.mem_filter.mp h).1).2

/-- C9: the listing operation returns only orders visible to the caller's
role — customers see only their own orders, a restaurant owner only their
restaurant's, drivers only orders assigned to them, admins all orders
(before pagination, the admin sequence is a permutation of the whole
store) — and pagination skips exactly `(page − 1) × limit` orders of the
sorted sequence and returns at most `limit`. -/
theorem getOrders_role_scoped (db : DB) (userId : Nat) (role : Role)
    (statusFilter : Option OrderStatus) (page limit : Nat) :
    (role = .customer → ∀ o ∈ getOrders db userId role statusFilter page limit,
        o.customer = userId)
    ∧ (role = .driver → ∀ o ∈ getOrders db userId role statusFilter page limit,
        o.driver = some userId)
    ∧ (role = .restaurant → ∀ restaurant,
        db.restaurants.find? (fun r => decide (r.owner = userId)) = some restaurant →
        ∀ o ∈ getOrders db userId role statusFilter page limit,
        o.restaurant = restaurant.id)
    ∧ (role = .admin → statusFilter = none →
        ((getOrdersQuery db userId role statusFilter).mergeSort
          (fun a b => decide (b.createdAt ≤ a.createdAt))).Perm db.orders)
    ∧ getOrders db userId role statusFilter page limit
        = (((getOrdersQuery db userId role statusFilter).mergeSort
            (fun a b => decide (b.createdAt ≤ a.createdAt))).drop
            ((page - 1) * limit)).take limit
    ∧ (getOrders db userId role statusFilter page limit).length ≤ limit := by
  refine ⟨?_, ?_, ?_, ?_, rfl, ?_⟩
  · rintro rfl o ho
    exact getOrdersQuery_customer (mem_getOrders ho)
  · rintro rfl o ho
    exact getOrdersQuery_driver (mem_getOrders ho)
  · rintro rfl restaurant hr o ho
    exact getOrdersQuery_restaurant hr (mem_getOrders ho)
  · rintro rfl rfl
    exact List.mergeSort_perm db.orders _
  · exact List.length_take_le _ _

/-- Store for the C9 witness: order 1 belongs to customer 2, order 2 to
customer 3. -/
def exC9db : DB :=
  { orders := [mkOrder 1 none .pending 0, { mkOrder 2 none .pending 1 with customer := 3 }]
    users := []
    restaurants := [exRestaurant]
    menuItems := [] }

/-- C9 witness: customer 2 listing orders sees exactly their own order 1,
whose customer field is 2. -/
theorem getOrders_role_scoped_witness :
    getOrders exC9db 2 .customer none 1 20 = [mkOrder 1 none .pending 0]
    ∧ (mkOrder 1 none .pending 0).customer = 2 := by
  have h1 : getOrders exC9db 2 .customer none 1 20 = [mkOrder 1 none .pending 0] := by
    show (((exC9db.orders.filter (fun o => decide (o.customer = 2))).mergeSort
        (fun a b => decide (b.createdAt ≤ a.createdAt))).drop 0).take 20
      = [mkOrder 1 none .pending 0]
    rw [show exC9db.orders.filter (fun o => decide (o.customer = 2))
        = [mkOrder 1 none .pending 0] from by decide]
    rw [List.mergeSort_singleton]
    decide
  exact ⟨h1, (getOrders_role_scoped exC9db 2 .customer none 1 20).1 rfl
    (mkOrder 1 none .pending 0) (by rw [h1]; exact List.mem_singleton.mpr rfl)⟩

/-! ## Dispatch-matcher lemmas (C4, C10) -/

theorem atan2_zero_one : atan2 0 1 = 0 := by
  unfold atan2
  rw [if_pos one_pos]
  norm_num [Real.arctan_zero]

/-- The haversine distance from the origin to itself is zero. -/
theorem calculateDistance_zero : calculateDistance 0 0 0 0 = 0 := by
  unfold calculateDistance
  norm_num [Real.sin_zero, Real.cos_zero, Real.sqrt_zero, Real.sqrt_one, atan2_zero_one]

theorem attachDistances_sound (db : DB) (lat lng : ℝ) :
    ∀ (l : List Order) (cs : List CandidateOrder),
      attachDistances db lat lng l = some cs →
      ∀ c ∈ cs, c.order ∈ l
        ∧ ∃ r, db.findRestaurant c.order.restaurant = some r
            ∧ c.distance = calculateDistance lat lng r.location.lat r.location.lng := by
  intro l
  induction l with
  | nil =>
    intro cs h c hc
    unfold attachDistances at h
    injection h with h
    subst h
    simp at hc
  | cons o rest ih =>
    intro cs h c hc
    unfold attachDistances at h
    cases hfr : db.findRestaurant o.restaurant with
    | none => rw [hfr] at h; exact absurd h (by simp)
    | some r =>
      rw [hfr] at h
      cases hrest : attachDistances db lat lng rest with
      | none => rw [hrest] at h; exact absurd h (by simp)
      | some cs' =>
        rw [hrest] at h
        injection h with h
        subst h
        rcases List.mem_cons.mp hc with hc | hc
        · subst hc
          exact ⟨List.mem_cons_self _ _, r, hfr, rfl⟩
        · obtain ⟨hmem, r', hr', hd⟩ := ih cs' hrest c hc
          exact ⟨List.mem_cons_of_mem _ hmem, r', hr', hd⟩

theorem attachDistances_complete (db : DB) (lat lng : ℝ) :
    ∀ (l : List Order) (cs : List CandidateOrder),
      attachDistances db lat lng l = some cs →
      ∀ o ∈ l, ∀ r, db.findRestaurant o.restaurant = some r →
        (⟨o, calculateDistance lat lng r.location.lat r.location.lng⟩ : CandidateOrder) ∈ cs := by
  intro l
  induction l with
  | nil =>
    intro cs h o ho
    simp at ho
  | cons o0 rest ih =>
    intro cs h o ho r hr
    unfold attachDistances at h
    cases hfr : db.findRestaurant o0.restaurant with
    | none => rw [hfr] at h; exact absurd h (by simp)
    | some r0 =>
      rw [hfr] at h
      cases hrest : attachDistances db lat lng rest with
      | none => rw [hrest] at h; exact absurd h (by simp)
      | some cs' =>
        rw [hrest] at h
        injection h with h
        subst h
        rcases List.mem_cons.mp ho with ho | ho
        · subst ho
          rw [hr] at hfr
          injection hfr with hfr
          subst hfr
          exact List.mem_cons_self _ _
        · exact List.mem_cons_of_mem _ (ih cs' hrest o ho r hr)

/-- Inversion of a successful `getAvailableOrders` run: the result is the
sort of the radius-filtered, distance-attached first 20 ready unassigned
orders. -/
theorem getAvailableOrders_ok (db : DB) (userId : Nat) (lat lng : ℝ)
    (cs : List CandidateOrder) (h : getAvailableOrders db userId lat lng = .ok cs) :
    ∃ withDistance, attachDistances db lat lng
        ((db.orders.filter
          (fun o => decide (o.status = .ready) && decide (o.driver = none))).take 20)
        = some withDistance
      ∧ cs = (withDistance.filter (fun c => decide (c.distance ≤ 10))).mergeSort
          (fun a b => decide (a.distance ≤ b.distance)) := by
  unfold getAvailableOrders at h
  split at h
  · exact absurd h (by simp)
  · dsimp only at h
    split at h
    · exact absurd h (by simp)
    · cases hattach : attachDistances db lat lng
          ((db.orders.filter
            (fun o => decide (o.status = .ready) && decide (o.driver = none))).take 20) with
      | none => rw [hattach] at h; exact absurd h (by simp)
      | some wd =>
        rw [hattach] at h
        injection h with h
        exact ⟨wd, rfl, h.symm⟩

/-! ## C4 — the candidate-order query -/

/-- C4 amended: the query considers only the first 20 ready, unassigned
orders fetched from storage, keeps exactly those whose haversine distance
to their restaurant is at most the fixed 10 km radius, and returns them
sorted ascending by distance; no tie-break by creation time is applied
(ties keep the fetch order of the stable sort). -/
theorem getAvailableOrders_spec (db : DB) (userId : Nat) (lat lng : ℝ)
    (cs : List CandidateOrder) (h : getAvailableOrders db userId lat lng = .ok cs) :
    cs.Pairwise (fun a b => a.distance ≤ b.distance)
    ∧ (∀ c ∈ cs,
        c.order ∈ (db.orders.filter
          (fun o => decide (o.status = .ready) && decide (o.driver = none))).take 20
        ∧ c.order.status = .ready ∧ c.order.driver = none ∧ c.distance ≤ 10
        ∧ ∃ r, db.findRestaurant c.order.restaurant = some r
            ∧ c.distance = calculateDistance lat lng r.location.lat r.location.lng)
    ∧ (∀ o ∈ (db.orders.filter
          (fun o => decide (o.status = .ready) && decide (o.driver = none))).take 20,
        ∀ r, db.findRestaurant o.restaurant = some r →
        calculateDistance lat lng r.location.lat r.location.lng ≤ 10 →
        (⟨o, calculateDistance lat lng r.location.lat r.location.lng⟩ : CandidateOrder) ∈ cs) := by
  obtain ⟨wd, hattach, hcs⟩ := getAvailableOrders_ok db userId lat lng cs h
  subst hcs
  have htrans : ∀ (a b c : CandidateOrder), decide (a.distance ≤ b.distance) = true →
      decide (b.distance ≤ c.distance) = true → decide (a.distance ≤ c.distance) = true := by
    intro a b c hab hbc
    exact decide_eq_true (le_trans (of_decide_eq_true hab) (of_decide_eq_true hbc))
  have htotal : ∀ (a b : CandidateOrder),
      (decide (a.distance ≤ b.distance) || decide (b.distance ≤ a.distance)) = true := by
    intro a b
    rcases le_total a.distance b.distance with hle | hle
    · simp [decide_eq_true hle]
    · simp [decide_eq_true hle]
  refine ⟨?_, ?_, ?_⟩
  · exact (List.sorted_mergeSort htrans htotal
      (wd.filter (fun c => decide (c.distance ≤ 10)))).imp (fun hab => of_decide_eq_true hab)
  · intro c hc
    have hmemf := List.mem_filter.mp (List.mem_mergeSort.mp hc)
    obtain ⟨hcl, r, hr, hd⟩ := attachDistances_sound db lat lng _ wd hattach c hmemf.1
    have horder := List.mem_filter.mp (List.mem_of_mem_take hcl)
    have hstatus : c.order.status = .ready ∧ c.order.driver = none := by
      have h2 := horder.2
      simp only [Bool.and_eq_true, decide_eq_true_eq] at h2
      exact h2
    exact ⟨hcl, hstatus.1, hstatus.2, of_decide_eq_true hmemf.2, r, hr, hd⟩
  · intro o ho r hr hle
    exact List.mem_mergeSort.mpr (List.mem_filter.mpr
      ⟨attachDistances_complete db lat lng _ wd hattach o ho r hr, decide_eq_true hle⟩)

/-- Store for the C4 counterexample: two equidistant ready orders at the
origin restaurant; order 1 was created later (time 5) than order 2
(time 3), and storage holds order 1 first. -/
def exC4db : DB :=
  { orders := [mkOrder 1 none .ready 5, mkOrder 2 none .ready 3]
    users := [⟨9, .driver, ⟨true, 0⟩⟩]
    restaurants := [exRestaurant]
    menuItems := [] }

/-- The order ids of a successful candidate query, in result order. -/
def candidateIds (r : Except ApiError (List CandidateOrder)) : Option (List Nat) :=
  match r with
  | .ok cs => some (cs.map (fun c => c.order.id))
  | .error _ => none

/-- C4 counterexample: both candidates are at distance 0, so the claimed
creation-time tie-break would return [2, 1] (order 2 was created earlier),
but the code returns [1, 2] — the fetch order — because the sort compares
distances only. -/
theorem getAvailableOrders_ignores_creation_ties :
    candidateIds (getAvailableOrders exC4db 9 0 0) = some [1, 2]
    ∧ (mkOrder 1 none .ready 5).createdAt = 5
    ∧ (mkOrder 2 none .ready 3).createdAt = 3 := by
  have hmain : getAvailableOrders exC4db 9 0 0
      = .ok (([⟨mkOrder 1 none .ready 5, calculateDistance 0 0 0 0⟩,
               ⟨mkOrder 2 none .ready 3, calculateDistance 0 0 0 0⟩].filter
          (fun c => decide (c.distance ≤ 10))).mergeSort
          (fun a b => decide (a.distance ≤ b.distance))) := rfl
  have hd : calculateDistance 0 0 0 0 ≤ 10 := by
    rw [calculateDistance_zero]
    norm_num
  have hfilter : [(⟨mkOrder 1 none .ready 5, calculateDistance 0 0 0 0⟩ : CandidateOrder),
      ⟨mkOrder 2 none .ready 3, calculateDistance 0 0 0 0⟩].filter
        (fun c => decide (c.distance ≤ 10))
      = [⟨mkOrder 1 none .ready 5, calculateDistance 0 0 0 0⟩,
         ⟨mkOrder 2 none .ready 3, calculateDistance 0 0 0 0⟩] := by
    simp [List.filter, decide_eq_true hd]
  have hsort : [(⟨mkOrder 1 none .ready 5, calculateDistance 0 0 0 0⟩ : CandidateOrder),
      ⟨mkOrder 2 none .ready 3, calculateDistance 0 0 0 0⟩].mergeSort
        (fun a b => decide (a.distance ≤ b.distance))
      = [⟨mkOrder 1 none .ready 5, calculateDistance 0 0 0 0⟩,
         ⟨mkOrder 2 none .ready 3, calculateDistance 0 0 0 0⟩] :=
    List.mergeSort_of_sorted (List.pairwise_pair.mpr (decide_eq_true (le_refl _)))
  rw [hmain, hfilter, hsort]
  exact ⟨rfl, rfl, rfl⟩

/-- Store for the C4/C10 witnesses: a single ready order at the origin. -/
def exC4small : DB :=
  { orders := [mkOrder 1 none .ready 0]
    users := [⟨9, .driver, ⟨true, 0⟩⟩]
    restaurants := [exRestaurant]
    menuItems := [] }

/-- The candidate query on the one-order store evaluates to that single
candidate at distance 0. -/
theorem exC4small_eval : getAvailableOrders exC4small 9 0 0
    = .ok [⟨mkOrder 1 none .ready 0, calculateDistance 0 0 0 0⟩] := by
  have hmain : getAvailableOrders exC4small 9 0 0
      = .ok (([⟨mkOrder 1 none .ready 0, calculateDistance 0 0 0 0⟩].filter
          (fun c => decide (c.distance ≤ 10))).mergeSort
          (fun a b => decide (a.distance ≤ b.distance))) := rfl
  have hd : calculateDistance 0 0 0 0 ≤ 10 := by
    rw [calculateDistance_zero]
    norm_num
  rw [hmain, show [(⟨mkOrder 1 none .ready 0, calculateDistance 0 0 0 0⟩ :
      CandidateOrder)].filter (fun c => decide (c.distance ≤ 10))
      = [⟨mkOrder 1 none .ready 0, calculateDistance 0 0 0 0⟩] from by
    simp [List.filter, decide_eq_true hd]]
  rw [List.mergeSort_singleton]

/-- C4 witness: on the one-order store the query succeeds and its result is
sorted by distance, and the returned order is `ready`. -/
theorem getAvailableOrders_spec_witness :
    getAvailableOrders exC4small 9 0 0
      = .ok [⟨mkOrder 1 none .ready 0, calculateDistance 0 0 0 0⟩]
    ∧ ([(⟨mkOrder 1 none .ready 0, calculateDistance 0 0 0 0⟩ : CandidateOrder)]).Pairwise
        (fun a b => a.distance ≤ b.distance)
    ∧ (mkOrder 1 none .ready 0).status = .ready := by
  refine ⟨exC4small_eval, ?_, rfl⟩
  exact (getAvailableOrders_spec exC4small 9 0 0 _ exC4small_eval).1

/-! ## C10 — the 20-order fetch cap -/

/-- Store for the C10 gap: 21 ready unassigned orders (ids 1..21) at the
origin restaurant. -/
def exC10db : DB :=
  { orders := (List.range 21).map (fun i => mkOrder (i + 1) none .ready i)
    users := [⟨9, .driver, ⟨true, 0⟩⟩]
    restaurants := [exRestaurant]
    menuItems := [] }

/-- The distance-attached first 20 orders of `exC10db`. -/
noncomputable def exC10wd : List CandidateOrder :=
  (((List.range 21).map (fun i => mkOrder (i + 1) none .ready i)).take 20).map
    (fun o => ⟨o, calculateDistance 0 0 0 0⟩)

/-- The candidate list `getAvailableOrders` produces on `exC10db`. -/
noncomputable def exC10cs : List CandidateOrder :=
  (exC10wd.filter (fun c => decide (c.distance ≤ 10))).mergeSort
    (fun a b => decide (a.distance ≤ b.distance))

/-- C10: every returned candidate comes from the first 20 ready unassigned
orders fetched from storage (the distance filter sees nothing beyond them),
and there is a store with more than 20 ready unassigned orders in which an
order within the 10 km radius is absent from the returned candidate list. -/
theorem getAvailableOrders_limit20 :
    (∀ (db : DB) (userId : Nat) (lat lng : ℝ) (cs : List CandidateOrder),
      getAvailableOrders db userId lat lng = .ok cs →
      ∀ c ∈ cs, c.order ∈ (db.orders.filter
        (fun o => decide (o.status = .ready) && decide (o.driver = none))).take 20)
    ∧ (∃ (db : DB) (o : Order) (cs : List CandidateOrder),
        20 < (db.orders.filter
          (fun o => decide (o.status = .ready) && decide (o.driver = none))).length
        ∧ o ∈ db.orders ∧ o.status = .ready ∧ o.driver = none
        ∧ (∃ r, db.findRestaurant o.restaurant = some r
            ∧ calculateDistance 0 0 r.location.lat r.location.lng ≤ 10)
        ∧ getAvailableOrders db 9 0 0 = .ok cs
        ∧ ∀ c ∈ cs, c.order.id ≠ o.id) := by
  constructor
  · intro db userId lat lng cs h c hc
    obtain ⟨wd, hattach, hcs⟩ := getAvailableOrders_ok db userId lat lng cs h
    subst hcs
    exact (attachDistances_sound db lat lng _ wd hattach c
      (List.mem_filter.mp (List.mem_mergeSort.mp hc)).1).1
  · refine ⟨exC10db, mkOrder 21 none .ready 20, exC10cs, by decide, by decide, rfl, rfl,
      ⟨exRestaurant, rfl, ?_⟩, rfl, ?_⟩
    · show calculateDistance 0 0 0 0 ≤ 10
      rw [calculateDistance_zero]
      norm_num
    · intro c hc
      have h1 : c ∈ exC10wd := (List.mem_filter.mp (List.mem_mergeSort.mp hc)).1
      obtain ⟨o, ho, hco⟩ := List.mem_map.mp h1
      have hall : ∀ x ∈ (((List.range 21).map
          (fun i => mkOrder (i + 1) none .ready i)).take 20), x.id ≠ 21 := by decide
      rw [← hco]
      exact hall o ho

/-- C10 witness: on the one-order store the returned candidate indeed comes
from the first 20 fetched ready unassigned orders. -/
theorem getAvailableOrders_limit20_witness :
    getAvailableOrders exC4small 9 0 0
      = .ok [⟨mkOrder 1 none .ready 0, calculateDistance 0 0 0 0⟩]
    ∧ (mkOrder 1 none .ready 0) ∈ (exC4small.orders.filter
        (fun o => decide (o.status = .ready) && decide (o.driver = none))).take 20 := by
  refine ⟨exC4small_eval, ?_⟩
  exact getAvailableOrders_limit20.1 exC4small 9 0 0 _ exC4small_eval
    ⟨mkOrder 1 none .ready 0, calculateDistance 0 0 0 0⟩ (List.mem_singleton.mpr rfl)

end Delivero
